import Mathlib

/-!
# Verification of the libtock-rs core against its specification

This file gives a shallow embedding, in Lean 4, of the parts of the
libtock-rs repository that the specification talks about:

* the fake `Kernel` used by the unit-test harness
  (`src/unittest/src/kernel/mod.rs`): its expectation FIFO, its syscall
  log, its construction and its leak diagnostic;
* the raw syscall ABI layer for ARM
  (`src/runtime/src/syscalls_impl_arm.rs`): the `syscall1/2/4`
  operations of the `RawSyscalls` capability interface;
* the fail-stop layer (`src/src/lang_items.rs`): the `start` lang item,
  the panic handler and the out-of-memory handler with their blink
  loops.

Rust interior mutability (`Cell`) is modelled by explicit state passing:
each method that mutates the kernel returns the updated kernel record.
`VecDeque` is modelled as a `List` whose head is the front of the queue,
so `push_back` appends at the end of the list and `pop_front` takes the
head.  The element types `ExpectedSyscall` and `SyscallLogEntry` are
declared in the crate root of `libtock_unittest`, outside the sources
available here; the specification describes them as placeholder types
that the queue/log machinery never inspects, so the kernel model is
parametric over them (`E` and `L`).
-/

/-- One machine word (`*mut ()` in the source): an opaque value that the
ABI layer moves between memory and registers without interpreting it. -/
abbrev Word : Type := Nat

namespace FakeKernel

/-- The fake kernel of `src/unittest/src/kernel/mod.rs`.

```
pub struct Kernel {
    expected_syscalls: Cell<std::collections::VecDeque<ExpectedSyscall>>,
    name: &'static str,
    syscall_log: Cell<Vec<SyscallLogEntry>>,
}
```

`E` stands for `ExpectedSyscall` and `L` for `SyscallLogEntry` (stub
types declared outside the sources at hand; the kernel is element
agnostic).  The `VecDeque` is a list with its front at the head. -/
structure Kernel (E L : Type) where
  expected_syscalls : List E
  name : String
  syscall_log : List L
  deriving Repr, DecidableEq

/-- The pure record built by `Kernel::new` before the thread-local
binding step: both containers start from `Default::default()`, i.e.
empty. -/
def Kernel.fresh (E L : Type) (name : String) : Kernel E L :=
  { expected_syscalls := [], name := name, syscall_log := [] }

/-- `Kernel::add_expected_syscall`: `queue.push_back(expected_syscall)`
on the expectation FIFO, all other fields untouched. -/
def Kernel.add_expected_syscall (k : Kernel E L) (e : E) : Kernel E L :=
  { k with expected_syscalls := k.expected_syscalls ++ [e] }

/-- `Kernel::pop_expected_syscall`: `queue.pop_front()`; returns the
front entry (or `none` when the queue is empty) together with the kernel
after removal. -/
def Kernel.pop_expected_syscall (k : Kernel E L) :
    Option E × Kernel E L :=
  match k.expected_syscalls with
  | [] => (none, k)
  | e :: rest => (some e, { k with expected_syscalls := rest })

/-- `Kernel::take_syscall_log`: `self.syscall_log.take()` — returns the
whole log and leaves the cell holding the default (empty) vector. -/
def Kernel.take_syscall_log (k : Kernel E L) : List L × Kernel E L :=
  (k.syscall_log, { k with syscall_log := [] })

/-- `Kernel::log_syscall`: `log.push(syscall)` — appends one entry at
the end of the log. -/
def Kernel.log_syscall (k : Kernel E L) (s : L) : Kernel E L :=
  { k with syscall_log := k.syscall_log ++ [s] }

/-- The panic payload of `Kernel::report_leaked`.  The source formats

```
"The fake::Kernel with name '{}' was never cleaned up; \
        perhaps a Rc<Kernel> was leaked?"
```

with the kernel's name spliced in.  The single quotation marks around
the spliced name are omitted from the model (they are inert text either
side of the name and play no role in any claim). -/
def report_leaked_message (name : String) : String :=
  "The fake::Kernel with name " ++ name ++
    " was never cleaned up; perhaps a Rc<Kernel> was leaked?"

/-- `Kernel::report_leaked` diverges (`-> !`); its observable behaviour
is the panic payload, which is the only thing the model returns. -/
def Kernel.report_leaked (k : Kernel E L) : String :=
  report_leaked_message k.name

/-- The thread-local slot of `kernel/thread_local.rs` (not among the
sources at hand): it records which kernel, if any, is currently bound
to the thread.  Only the bound kernel's name is observable through the
claims, so the slot stores the name. -/
abbrev ThreadLocal : Type := Option String

/-- Modelled from the spec: `thread_local::set_kernel`, whose source
(`src/unittest/src/kernel/thread_local.rs`) is not among the files at
hand.  Per the specification, `new(name)` "binds it as the sole active
instance for the calling thread" and "fails (panics) if a kernel is
already bound to this thread, reporting the *previous* kernel's name";
a leaked kernel is "reported via the leak diagnostic", i.e. through
`report_leaked` of the previously bound kernel.  An `Except` result
models the panic: `.error msg` is a panic with payload `msg`. -/
def set_kernel (tl : ThreadLocal) (name : String) :
    Except String ThreadLocal :=
  match tl with
  | some prev => .error (report_leaked_message prev)
  | none => .ok (some name)

/-- `Kernel::new`: builds the fresh kernel record and binds it to the
thread; the binding step panics (error) when a kernel is already bound,
and the panic carries the previous kernel's leak message. -/
def Kernel.new (E L : Type) (tl : ThreadLocal) (name : String) :
    Except String (Kernel E L × ThreadLocal) :=
  match set_kernel tl name with
  | .error msg => .error msg
  | .ok tl2 => .ok (Kernel.fresh E L name, tl2)

/-- Enqueue a whole sequence of expectations, first list element first. -/
def addAll (k : Kernel E L) (es : List E) : Kernel E L :=
  es.foldl Kernel.add_expected_syscall k

/-- Dequeue `n` times, collecting the `n` results in call order. -/
def popN : Nat → Kernel E L → List (Option E) × Kernel E L
  | 0, k => ([], k)
  | n + 1, k =>
      let step := k.pop_expected_syscall
      let rest := popN n step.2
      (step.1 :: rest.1, rest.2)

/-- "`msg` contains `sub`" for panic-message claims: `sub` occurs
contiguously inside `msg`. -/
def containsStr (msg sub : String) : Prop :=
  ∃ p s, msg = p ++ sub ++ s

end FakeKernel

namespace RawSyscallAbi

/-- The syscall-relevant ARM registers `r0`-`r3` (the argument/result
registers `a1`-`a4` of the Tock ABI).  The other registers are either
callee-saved or clobbered and never carry syscall data. -/
structure RegFile where
  r0 : Word
  r1 : Word
  r2 : Word
  r3 : Word
  deriving Repr, DecidableEq

/-- The effect of the `svc` trap instruction: the kernel receives the
syscall class number and the register file and hands back a register
file.  The ABI layer treats this as a black box, so it is a parameter
of the model. -/
structure Machine where
  svc : Nat → RegFile → RegFile

namespace TockSyscalls

/-- `TockSyscalls::syscall1` (`src/runtime/src/syscalls_impl_arm.rs`):
destructures its 1-element argument array into `r0`, issues
`svc CLASS` with `r0` as an in/out register and `r1` as a pure output
register, and returns `[r0, r1]`.  Registers not set by the caller keep
whatever the surrounding code left in them (`pre`). -/
def syscall1 (m : Machine) (cls : Nat) (pre : RegFile) (a0 : Word) :
    List Word :=
  let out := m.svc cls { pre with r0 := a0 }
  [out.r0, out.r1]

/-- `TockSyscalls::syscall2`: destructures its 2-element argument array
into `r0`, `r1`, issues `svc CLASS` with both as in/out registers, and
returns `[r0, r1]`. -/
def syscall2 (m : Machine) (cls : Nat) (pre : RegFile) (a0 a1 : Word) :
    List Word :=
  let out := m.svc cls { pre with r0 := a0, r1 := a1 }
  [out.r0, out.r1]

/-- `TockSyscalls::syscall4`: destructures its 4-element argument array
into `r0`-`r3`, issues `svc CLASS` with all four as in/out registers,
and returns `[r0, r1, r2, r3]`. -/
def syscall4 (m : Machine) (cls : Nat) (_pre : RegFile)
    (a0 a1 a2 a3 : Word) : List Word :=
  let out := m.svc cls { r0 := a0, r1 := a1, r2 := a2, r3 := a3 }
  [out.r0, out.r1, out.r2, out.r3]

end TockSyscalls

end RawSyscallAbi

namespace FailStop

/-- The `start` lang item (`src/src/lang_items.rs`):

```
extern "C" fn start<T>(main: fn() -> T, _argc: isize, _argv: ...) -> usize
where T: Termination { main(); 0 }
```

Side effects of the application are modelled by threading a world state
`σ` through `main`; `main` also produces its `Termination` value `T`,
which `start` discards.  `start` returns the `usize` process status. -/
def start (T σ : Type) (main : σ → σ × T) (_argc : Int) (_argv : Word)
    (s : σ) : σ × Nat :=
  ((main s).1, 0)

/-- One externally observable action of the fail-stop handlers: a
diagnostic status code emitted through the LowLevelDebug channel, an
attempt to switch LED `i` on or off, or a timer sleep of the given
number of milliseconds. -/
inductive Event
  | debugCode : Nat → Event
  | ledOn : Nat → Event
  | ledOff : Nat → Event
  | sleep : Nat → Event
  deriving Repr, DecidableEq

/-- Modelled from the spec: the environment seen by a fail-stop handler
through the external `timer` and `led` modules (their sources are not
among the files at hand).  Per the spec, indicators are "an enumerable
collection" (`led::all()`, modelled by a count, LEDs numbered from 0)
and the timer is acquired in two fallible steps, `acquire context →
activate` (`DriverContext::create()` and `activate()`), each of which
may fail. -/
structure Env where
  numLeds : Nat
  contextOk : Bool
  activateOk : Bool
  deriving Repr, DecidableEq

/-- `timer_driver` in the handlers is `Some` exactly when context
creation and activation both succeeded:
`context.as_ref().map(...).and_then(|d| d.activate().ok())`. -/
def Env.timerAvailable (env : Env) : Bool :=
  env.contextOk && env.activateOk

/-- The events of one iteration of the `loop` inside `panic_handler`:
switch every LED on (errors discarded by `let _ =`), sleep 100 ms if the
timer driver was acquired, switch every LED off, sleep again if the
timer driver was acquired. -/
def panicLoopBody (env : Env) : List Event :=
  (List.range env.numLeds).map Event.ledOn
    ++ (if env.timerAvailable then [Event.sleep 100] else [])
    ++ (List.range env.numLeds).map Event.ledOff
    ++ (if env.timerAvailable then [Event.sleep 100] else [])

/-- The events of one iteration of the `loop` inside `cycle_leds` (the
`alloc_error_handler`); the source block is a verbatim copy of the one
in `panic_handler`, so this definition repeats it independently. -/
def cycleLedsLoopBody (env : Env) : List Event :=
  (List.range env.numLeds).map Event.ledOn
    ++ (if env.timerAvailable then [Event.sleep 100] else [])
    ++ (List.range env.numLeds).map Event.ledOff
    ++ (if env.timerAvailable then [Event.sleep 100] else [])

/-- One step of an async task as driven by `executor::block_on`: either
the task completes with a value, or it performs some observable events
and remains in a continuation state. -/
inductive TaskStep (σ α : Type)
  | done : α → TaskStep σ α
  | running : List Event → σ → TaskStep σ α

/-- The async block of `panic_handler` as a step machine over loop
iterations: the `loop` has no `break` or `return`, so every step
performs one iteration and continues; `done` is never produced.  (When
the timer is unavailable the loop body contains no `await`, so the
iterations are not separated by suspensions, but the completion
behaviour is the same: none.) -/
def panicBlinkStep (env : Env) : Unit → TaskStep Unit Unit
  | () => .running (panicLoopBody env) ()

/-- The async block of `cycle_leds` as a step machine, translated
independently from its own (verbatim-duplicated) source block. -/
def cycleLedsBlinkStep (env : Env) : Unit → TaskStep Unit Unit
  | () => .running (cycleLedsLoopBody env) ()

/-- Modelled from the spec: `executor::block_on` (its source is not
among the files at hand) "drives one asynchronous computation to
completion ... it never returns early", by repeatedly polling the task.
`runSteps step n s` drives the task for at most `n` steps: it returns
the events observed and `some r` if the task completed with `r` within
`n` steps, `none` otherwise — so `block_on` has returned within `n`
steps iff the second component is `some`. -/
def runSteps (step : σ → TaskStep σ α) : Nat → σ → List Event × Option α
  | 0, _ => ([], none)
  | n + 1, s =>
      match step s with
      | .done r => ([], some r)
      | .running evts s2 =>
          let rest := runSteps step n s2
          (evts ++ rest.1, rest.2)

/-- The observable behaviour of `panic_handler` up to `k` blink-loop
iterations: it first calls `debug::low_level_status_code(1)` and then
runs the blink loop via `block_on`. -/
def panicHandlerTrace (env : Env) (k : Nat) : List Event :=
  Event.debugCode 1 :: (runSteps (panicBlinkStep env) k ()).1

/-- The observable behaviour of `cycle_leds` (the out-of-memory
handler) up to `k` blink-loop iterations: it runs its blink loop via
`block_on` with no preceding diagnostic emission. -/
def cycleLedsTrace (env : Env) (k : Nat) : List Event :=
  (runSteps (cycleLedsBlinkStep env) k ()).1

end FailStop

/-! ## Helper lemmas -/

open FakeKernel FailStop RawSyscallAbi

/-- Enqueueing a list of expectations appends it, in order, at the back
of whatever the queue already held. -/
theorem addAll_expected_syscalls (k : Kernel E L) (es : List E) :
    (addAll k es).expected_syscalls = k.expected_syscalls ++ es := by
  induction es generalizing k with
  | nil => simp [addAll]
  | cons e rest ih =>
      show (addAll (k.add_expected_syscall e) rest).expected_syscalls = _
      rw [ih]
      simp [Kernel.add_expected_syscall]

/-- Popping one more time than the queue length returns the queue
entries in order, each wrapped in `some`, followed by one `none`. -/
theorem popN_of_queue (es : List E) (k : Kernel E L)
    (h : k.expected_syscalls = es) :
    (popN (es.length + 1) k).1 = es.map some ++ [none] := by
  induction es generalizing k with
  | nil => simp [popN, Kernel.pop_expected_syscall, h]
  | cons e rest ih =>
      have hpop : k.pop_expected_syscall =
          (some e, { k with expected_syscalls := rest }) := by
        simp [Kernel.pop_expected_syscall, h]
      show (popN (rest.length + 1 + 1) k).1 = _
      rw [popN, hpop]
      simp [ih { k with expected_syscalls := rest } rfl]

/-- The diagnostic event never occurs inside the panic handler's blink
loop body: the loop only touches LEDs and the timer. -/
theorem debugCode_not_mem_panicLoopBody (env : Env) (n : Nat) :
    Event.debugCode n ∉ panicLoopBody env := by
  cases h : env.timerAvailable <;> simp [panicLoopBody, h]

/-- The two blink-loop step machines are the same function: the source
blocks are verbatim copies of each other. -/
theorem cycleLedsBlinkStep_eq_panicBlinkStep (env : Env) :
    cycleLedsBlinkStep env = panicBlinkStep env := rfl

/-- The blink loop of the panic handler never completes: driving it any
number of steps never produces a result. -/
theorem runSteps_panic_never_done (env : Env) (k : Nat) :
    (runSteps (panicBlinkStep env) k ()).2 = none := by
  induction k with
  | zero => rfl
  | succ j ih => simpa [runSteps, panicBlinkStep] using ih

/-- The blink loop of the panic handler never emits a diagnostic
event. -/
theorem debugCode_not_mem_runSteps_panic (env : Env) (k n : Nat) :
    Event.debugCode n ∉ (runSteps (panicBlinkStep env) k ()).1 := by
  induction k with
  | zero => simp [runSteps]
  | succ j ih =>
      simp [runSteps, panicBlinkStep]
      exact ⟨debugCode_not_mem_panicLoopBody env n, ih⟩

/-- With the timer driver unavailable, the loop body degenerates to the
LED-on events followed by the LED-off events, with no sleeps. -/
theorem panicLoopBody_no_timer (env : Env)
    (ht : env.timerAvailable = false) :
    panicLoopBody env =
      (List.range env.numLeds).map Event.ledOn ++
        (List.range env.numLeds).map Event.ledOff := by
  simp [panicLoopBody, ht]

/-- With the timer driver unavailable, `k` loop iterations produce `k`
copies of the sleep-free body. -/
theorem runSteps_panic_trace_no_timer (env : Env)
    (ht : env.timerAvailable = false) (k : Nat) :
    (runSteps (panicBlinkStep env) k ()).1 =
      (List.replicate k
        ((List.range env.numLeds).map Event.ledOn ++
          (List.range env.numLeds).map Event.ledOff)).flatten := by
  induction k with
  | zero => rfl
  | succ j ih =>
      simp [runSteps, panicBlinkStep, panicLoopBody_no_timer env ht, ih,
        List.replicate_succ]

/-! ## The claims -/

/-- C1: the expectation queue is strictly FIFO — starting from a kernel
whose queue is empty, after `add_expected_syscall(e1) ... (en)`, `n`
calls to `pop_expected_syscall` return `some e1, ..., some en` in that
order and one further call returns `none`. -/
theorem expectation_queue_fifo (E L : Type) (k : Kernel E L) (es : List E)
    (h : k.expected_syscalls = []) :
    (popN (es.length + 1) (addAll k es)).1 = es.map some ++ [none] := by
  apply popN_of_queue
  rw [addAll_expected_syscalls, h]
  rfl

/-- Witness for C1 at a concrete kernel and a concrete three-element
sequence of expectations. -/
theorem expectation_queue_fifo_witness :
    (Kernel.fresh Nat Nat "w").expected_syscalls = [] ∧
      (popN 4 (addAll (Kernel.fresh Nat Nat "w") [3, 4, 5])).1 =
        [some 3, some 4, some 5, none] :=
  ⟨rfl, expectation_queue_fifo Nat Nat (Kernel.fresh Nat Nat "w") [3, 4, 5] rfl⟩

/-- C2: `take_syscall_log` is idempotent-draining — the first call
returns the whole log and empties it, a second consecutive call returns
the empty list, and the two results concatenate to the original log. -/
theorem take_syscall_log_drains (E L : Type) (k : Kernel E L) :
    (k.take_syscall_log).1 = k.syscall_log ∧
      (k.take_syscall_log).2.syscall_log = [] ∧
      ((k.take_syscall_log).2.take_syscall_log).1 = [] ∧
      (k.take_syscall_log).1 ++ ((k.take_syscall_log).2.take_syscall_log).1 =
        k.syscall_log := by
  simp [Kernel.take_syscall_log]

/-- C3 counterexample: `syscall1` does not return 1 result slot — at a
concrete machine and concrete registers it returns a 2-slot result
(`[r0, r1]`), refuting "a number of result slots equal to n" for
arity 1. -/
theorem syscall1_not_one_result_slot :
    ¬ (TockSyscalls.syscall1 ⟨fun _ rf => rf⟩ 2 ⟨9, 8, 7, 6⟩ 5).length = 1 :=
  by decide

/-- C3 (amended): `syscall2` and `syscall4` return as many result slots
as their argument counts (2 and 4), while `syscall1` takes 1 argument
slot but returns 2 result slots. -/
theorem syscall_result_slot_counts (m : Machine) (cls : Nat)
    (pre : RegFile) (a0 a1 a2 a3 : Word) :
    (TockSyscalls.syscall1 m cls pre a0).length = 2 ∧
      (TockSyscalls.syscall2 m cls pre a0 a1).length = 2 ∧
      (TockSyscalls.syscall4 m cls pre a0 a1 a2 a3).length = 4 :=
  ⟨rfl, rfl, rfl⟩

/-- C4 counterexample: the out-of-memory handler does not attempt to
emit the diagnostic status code — with one LED and a working timer its
trace over one loop iteration contains no diagnostic event and differs
from the panic handler's trace. -/
theorem oom_handler_emits_no_diagnostic :
    Event.debugCode 1 ∉ cycleLedsTrace ⟨1, true, true⟩ 1 ∧
      panicHandlerTrace ⟨1, true, true⟩ 1 ≠ cycleLedsTrace ⟨1, true, true⟩ 1 :=
  by decide

/-- C4 (amended): the two handlers run the identical blink loop — the
out-of-memory handler's trace equals the panic handler's loop trace in
every environment and over any number of iterations — but only the
panic handler emits the diagnostic status code first; the out-of-memory
handler's trace never contains a diagnostic event. -/
theorem handlers_share_blink_loop (env : Env) (k : Nat) :
    cycleLedsTrace env k = (runSteps (panicBlinkStep env) k ()).1 ∧
      panicHandlerTrace env k = Event.debugCode 1 :: cycleLedsTrace env k ∧
      ∀ n, Event.debugCode n ∉ cycleLedsTrace env k := by
  have hloop : cycleLedsTrace env k = (runSteps (panicBlinkStep env) k ()).1 := by
    unfold cycleLedsTrace
    rw [cycleLedsBlinkStep_eq_panicBlinkStep]
  refine ⟨hloop, ?_, ?_⟩
  · unfold panicHandlerTrace
    rw [hloop]
  · intro n
    rw [hloop]
    exact debugCode_not_mem_runSteps_panic env k n

/-- C5: the panic handler first emits the one-code diagnostic (its
trace starts with the diagnostic event and the blink loop never emits
one), and the blink-loop task never completes, so `block_on` — and with
it the handler — never returns within any number of steps. -/
theorem panic_handler_diag_then_never_returns (env : Env) (k : Nat) :
    (panicHandlerTrace env k).head? = some (Event.debugCode 1) ∧
      (∀ n, Event.debugCode n ∉ (runSteps (panicBlinkStep env) k ()).1) ∧
      (runSteps (panicBlinkStep env) k ()).2 = none :=
  ⟨rfl, fun n => debugCode_not_mem_runSteps_panic env k n,
    runSteps_panic_never_done env k⟩

/-- C6: constructing a kernel on a thread with no bound kernel succeeds
and binds it; constructing another while the first is still bound
panics, and the panic message is exactly the leak message of the
previously bound kernel, which contains that previous kernel's name. -/
theorem new_twice_panics_with_previous_name (E L : Type) (a b : String) :
    Kernel.new E L none a = .ok (Kernel.fresh E L a, some a) ∧
      Kernel.new E L (some a) b = .error (report_leaked_message a) ∧
      containsStr (report_leaked_message a) a := by
  refine ⟨rfl, rfl, "The fake::Kernel with name ",
    " was never cleaned up; perhaps a Rc<Kernel> was leaked?", rfl⟩

/-- C7: `start` invokes `main` exactly once — the final world state is
the state after a single invocation of `main`, and a `main`
instrumented to count its invocations is invoked exactly once — and
reports the success status 0. -/
theorem start_runs_main_once_reports_success (T σ : Type)
    (main : σ → σ × T) (argc : Int) (argv : Word) (s : σ) :
    (start T σ main argc argv s).2 = 0 ∧
      (start T σ main argc argv s).1 = (main s).1 ∧
      ∀ (t : T) (n : Nat),
        (start T Nat (fun m => (m + 1, t)) argc argv n).1 = n + 1 :=
  ⟨rfl, rfl, fun _ _ => rfl⟩

/-- C8: when timer context creation or activation fails, the panic
handler still proceeds into the blink loop — its loop trace is exactly
`k` copies of the LED-on events followed by the LED-off events — and no
sleep event of any duration ever appears in the handler's trace. -/
theorem panic_handler_degrades_without_timer (env : Env)
    (h : env.contextOk = false ∨ env.activateOk = false) (k d : Nat) :
    (runSteps (panicBlinkStep env) k ()).1 =
        (List.replicate k
          ((List.range env.numLeds).map Event.ledOn ++
            (List.range env.numLeds).map Event.ledOff)).flatten ∧
      Event.sleep d ∉ panicHandlerTrace env k := by
  have ht : env.timerAvailable = false := by
    rcases h with h | h <;> simp [Env.timerAvailable, h]
  have htrace := runSteps_panic_trace_no_timer env ht k
  refine ⟨htrace, ?_⟩
  unfold panicHandlerTrace
  rw [htrace]
  simp

/-- Witness for C8: two LEDs, context creation fails, one iteration. -/
theorem panic_handler_degrades_without_timer_witness :
    ((⟨2, false, true⟩ : Env).contextOk = false ∨
        (⟨2, false, true⟩ : Env).activateOk = false) ∧
      ((runSteps (panicBlinkStep ⟨2, false, true⟩) 1 ()).1 =
          (List.replicate 1
            ((List.range (2 : Nat)).map Event.ledOn ++
              (List.range (2 : Nat)).map Event.ledOff)).flatten ∧
        Event.sleep 100 ∉ panicHandlerTrace ⟨2, false, true⟩ 1) :=
  ⟨Or.inl rfl,
    panic_handler_degrades_without_timer ⟨2, false, true⟩ (Or.inl rfl) 1 100⟩

/-- C9: `report_leaked` panics with a message containing the kernel's
own name; in particular a kernel named `name_to_report_leaked` panics
with a message containing exactly that string. -/
theorem report_leaked_contains_name (E L : Type) (k : Kernel E L) :
    containsStr k.report_leaked k.name ∧
      containsStr ((Kernel.fresh E L "name_to_report_leaked").report_leaked)
        "name_to_report_leaked" :=
  ⟨⟨"The fake::Kernel with name ",
      " was never cleaned up; perhaps a Rc<Kernel> was leaked?", rfl⟩,
    ⟨"The fake::Kernel with name ",
      " was never cleaned up; perhaps a Rc<Kernel> was leaked?", rfl⟩⟩

/-- C10: frame conditions of the kernel operations —
`add_expected_syscall` changes neither the log nor the name,
`take_syscall_log` and `log_syscall` change neither the queue nor the
name, `log_syscall` only appends one entry at the back of the log, and
a freshly constructed kernel has an empty queue and an empty log. -/
theorem kernel_frame_conditions (E L : Type) (k : Kernel E L) (e : E)
    (s : L) (name : String) :
    (k.add_expected_syscall e).syscall_log = k.syscall_log ∧
      (k.add_expected_syscall e).name = k.name ∧
      (k.take_syscall_log).2.expected_syscalls = k.expected_syscalls ∧
      (k.take_syscall_log).2.name = k.name ∧
      (k.log_syscall s).expected_syscalls = k.expected_syscalls ∧
      (k.log_syscall s).name = k.name ∧
      (k.log_syscall s).syscall_log = k.syscall_log ++ [s] ∧
      (Kernel.fresh E L name).expected_syscalls = [] ∧
      (Kernel.fresh E L name).syscall_log = [] :=
  ⟨rfl, rfl, rfl, rfl, rfl, rfl, rfl, rfl, rfl⟩
